import Mathlib

/-!
Shallow embedding of the We-Vote voting application.

The integrity core lives in the SQL migration
`supabase/migrations/20251117140442_*.sql`: table definitions with their
constraints (notably `UNIQUE(election_id, voter_id)` on `votes` and the
`ON DELETE CASCADE` foreign keys), the row-level-security (RLS) policies,
and the `get_vote_counts` aggregation function.  The client-side flows
`handleCreateElection` (Admin page), `handleSubmitVote` (VotePage.tsx) and
`handleExport` (ResultsPage.tsx) are embedded as functions over an explicit
database state.

Conventions of the embedding:
* UUIDs are modelled as `Nat`; `gen_random_uuid()` becomes a fresh value
  drawn from a `nextId` counter in the state.
* Timestamps are omitted (no claim mentions them).
* An SQL `INSERT` that fails an RLS `WITH CHECK` or a constraint raises an
  error and changes nothing; an SQL `UPDATE`/`DELETE` whose `USING` clause
  filters out a row silently leaves that row untouched (no error), which is
  exactly Postgres RLS semantics.
* A multi-row `INSERT` (the candidate batch in `handleCreateElection`) is a
  single statement and therefore atomic: all rows or none.
-/

namespace WeVote

abbrev UserId := Nat
abbrev ElectionId := Nat
abbrev CandidateId := Nat
abbrev VoteId := Nat

/-- `CREATE TYPE public.app_role AS ENUM ('admin', 'student')` -/
inductive AppRole
| admin
| student
deriving DecidableEq, Repr

/-- `CREATE TYPE public.election_status AS ENUM ('draft', 'active', 'closed')` -/
inductive ElectionStatus
| draft
| active
| closed
deriving DecidableEq, Repr

/-- A row of `public.elections`. -/
structure Election where
  id : ElectionId
  title : String
  description : String
  status : ElectionStatus
  is_anonymous : Bool
  start_date : String
  end_date : String
  created_by : UserId
deriving DecidableEq, Repr

/-- A row of `public.candidates`. -/
structure Candidate where
  id : CandidateId
  election_id : ElectionId
  name : String
  description : String
deriving DecidableEq, Repr

/-- A row of `public.votes` (`vote_token UUID DEFAULT gen_random_uuid()`). -/
structure Vote where
  id : VoteId
  election_id : ElectionId
  candidate_id : CandidateId
  voter_id : UserId
  vote_token : Nat
deriving DecidableEq, Repr

/-- A row of `public.audit_logs` (the JSONB payload is kept abstract as a string). -/
structure AuditLog where
  id : Nat
  user_id : UserId
  action : String
deriving DecidableEq, Repr

/-- The database state: the tables touched by the claims, plus the id
generator standing for `gen_random_uuid()`. -/
structure DBState where
  nextId : Nat
  user_roles : List (UserId × AppRole)
  elections : List Election
  candidates : List Candidate
  votes : List Vote
  audit_logs : List AuditLog
deriving DecidableEq, Repr

def emptyDB : DBState :=
  { nextId := 0, user_roles := [], elections := [], candidates := [],
    votes := [], audit_logs := [] }

/-- `public.has_role(_user_id, _role)`: `EXISTS (SELECT 1 FROM user_roles
WHERE user_id = _user_id AND role = _role)`. -/
def has_role (s : DBState) (u : UserId) (r : AppRole) : Bool :=
  s.user_roles.any (fun p => p.1 == u && p.2 == r)

/-- Errors surfaced by the storage layer, named after the spec taxonomy
(§7).  `DuplicateVote` is the unique-constraint violation on `votes`,
`ForeignKeyViolation` a failed `REFERENCES` check, `PermissionDenied` a
failed RLS `WITH CHECK`, `DependencyFailure` an infrastructural failure,
`ValidationError` the client-side candidate-count check. -/
inductive DBError
| PermissionDenied
| NotFound
| DuplicateVote
| ForeignKeyViolation
| ValidationError
| DependencyFailure
deriving DecidableEq, Repr

/-! ### RLS policies, transcribed from the migration -/

/-- Policy "Everyone can view active elections":
`USING (status = 'active' OR public.has_role(auth.uid(), 'admin'))`. -/
def electionsSelectPolicy (s : DBState) (caller : UserId) (e : Election) : Bool :=
  e.status == .active || has_role s caller .admin

/-- Policy "Only admins can create elections":
`WITH CHECK (public.has_role(auth.uid(), 'admin'))`. -/
def electionsInsertCheck (s : DBState) (caller : UserId) : Bool :=
  has_role s caller .admin

/-- Policy "Users can cast votes": `WITH CHECK (voter_id = auth.uid())`.
Note it mentions only the new row's `voter_id` and the caller. -/
def votesInsertCheck (caller : UserId) (v : Vote) : Bool :=
  v.voter_id == caller

/-- The migration declares no UPDATE policy for `votes`, so RLS denies every
row to an UPDATE statement. -/
def votesUpdatePolicy (s : DBState) (caller : UserId) (v : Vote) : Bool :=
  false

/-- The migration declares no DELETE policy for `votes`, so RLS denies every
row to a DELETE statement. -/
def votesDeletePolicy (s : DBState) (caller : UserId) (v : Vote) : Bool :=
  false

/-! ### Storage operations -/

/-- `SELECT * FROM elections` under RLS, with an arbitrary client-side
filter `q` (query parameters the caller controls).  The RLS `USING` clause
is applied by the storage engine to every row regardless of `q`. -/
def selectElections (s : DBState) (caller : UserId) (q : Election → Bool) :
    List Election :=
  (s.elections.filter (fun e => electionsSelectPolicy s caller e)).filter q

/-- `INSERT INTO elections ... RETURNING *`: RLS `WITH CHECK` admin, id
generated. -/
def insertElection (s : DBState) (caller : UserId)
    (title descr : String) (status : ElectionStatus) (anon : Bool)
    (startDate endDate : String) (createdBy : UserId) :
    Except DBError (Election × DBState) :=
  if electionsInsertCheck s caller then
    let e : Election :=
      { id := s.nextId, title := title, description := descr, status := status,
        is_anonymous := anon, start_date := startDate, end_date := endDate,
        created_by := createdBy }
    .ok (e, { s with nextId := s.nextId + 1, elections := s.elections ++ [e] })
  else
    .error .PermissionDenied

/-- A candidate row as supplied to the batch insert (id generated). -/
structure CandidateInput where
  election_id : ElectionId
  name : String
  description : String
deriving DecidableEq, Repr

/-- Append a batch of candidate rows, generating ids. -/
def appendCandidates (s : DBState) : List CandidateInput → DBState
| [] => s
| c :: rest =>
    appendCandidates
      { s with nextId := s.nextId + 1,
               candidates := s.candidates ++
                 [{ id := s.nextId, election_id := c.election_id,
                    name := c.name, description := c.description }] }
      rest

/-- Multi-row `INSERT INTO candidates`: one atomic statement.  RLS policy
"Only admins can manage candidates" (`FOR ALL USING (has_role admin)`, the
`USING` clause doubling as `WITH CHECK`), and the `REFERENCES elections`
foreign key on every row.  If any row fails, nothing is inserted. -/
def insertCandidates (s : DBState) (caller : UserId)
    (rows : List CandidateInput) : Except DBError DBState :=
  if ¬ has_role s caller .admin then
    .error .PermissionDenied
  else if ¬ rows.all (fun c => s.elections.any (fun e => e.id == c.election_id)) then
    .error .ForeignKeyViolation
  else
    .ok (appendCandidates s rows)

/-- `INSERT INTO votes (election_id, candidate_id, voter_id)`: RLS
`WITH CHECK (voter_id = auth.uid())`, the two `REFERENCES` foreign keys,
and the table constraint `UNIQUE(election_id, voter_id)` — the uniqueness
check is part of the atomic insert, enforced by the storage engine, not a
separate application-level read.  Note that nothing relates `candidate_id`
to `election_id`, and no clause reads the referenced election's status. -/
def insertVote (s : DBState) (caller : UserId)
    (electionId : ElectionId) (candidateId : CandidateId) (voterId : UserId) :
    Except DBError (Vote × DBState) :=
  let v : Vote :=
    { id := s.nextId, election_id := electionId, candidate_id := candidateId,
      voter_id := voterId, vote_token := s.nextId }
  if ¬ votesInsertCheck caller v then
    .error .PermissionDenied
  else if ¬ s.elections.any (fun e => e.id == electionId) then
    .error .ForeignKeyViolation
  else if ¬ s.candidates.any (fun c => c.id == candidateId) then
    .error .ForeignKeyViolation
  else if s.votes.any (fun w => w.election_id == electionId && w.voter_id == voterId) then
    .error .DuplicateVote
  else
    .ok (v, { s with nextId := s.nextId + 1, votes := s.votes ++ [v] })

/-- `INSERT INTO audit_logs`: policy "System can insert audit logs" is
`WITH CHECK (true)`, so it always succeeds. -/
def insertAuditLog (s : DBState) (u : UserId) (action : String) : DBState :=
  { s with nextId := s.nextId + 1,
           audit_logs := s.audit_logs ++ [{ id := s.nextId, user_id := u, action := action }] }

/-- `UPDATE elections SET status = ...`: policy "Only admins can update
elections" (`USING (has_role admin)`); for a non-admin the statement
matches no rows and silently changes nothing. -/
def updateElectionStatus (s : DBState) (caller : UserId)
    (eid : ElectionId) (st : ElectionStatus) : DBState :=
  if has_role s caller .admin then
    { s with elections :=
        s.elections.map (fun e => if e.id == eid then { e with status := st } else e) }
  else s

/-- `DELETE FROM elections WHERE id = eid`: policy "Only admins can delete
elections"; deletion cascades via `ON DELETE CASCADE` to candidates with
this `election_id`, to votes with this `election_id`, and (through the
candidate cascade) to votes whose `candidate_id` is a deleted candidate. -/
def deleteElection (s : DBState) (caller : UserId) (eid : ElectionId) : DBState :=
  if has_role s caller .admin then
    let deadCands := (s.candidates.filter (fun c => c.election_id == eid)).map (fun c => c.id)
    { s with
      elections := s.elections.filter (fun e => e.id != eid),
      candidates := s.candidates.filter (fun c => c.election_id != eid),
      votes := s.votes.filter
        (fun v => v.election_id != eid && ¬ deadCands.contains v.candidate_id) }
  else s

/-- `DELETE FROM candidates WHERE id = cid`: policy "Only admins can manage
candidates"; `votes.candidate_id REFERENCES candidates(id) ON DELETE
CASCADE` removes every vote naming the candidate. -/
def deleteCandidate (s : DBState) (caller : UserId) (cid : CandidateId) : DBState :=
  if has_role s caller .admin then
    { s with
      candidates := s.candidates.filter (fun c => c.id != cid),
      votes := s.votes.filter (fun v => v.candidate_id != cid) }
  else s

/-- A direct `DELETE FROM votes` with any client-chosen row filter: RLS has
no DELETE policy for `votes`, so no row is visible to the statement. -/
def deleteVotesDirect (s : DBState) (caller : UserId) (pred : Vote → Bool) : DBState :=
  { s with votes := s.votes.filter (fun v => ¬ (votesDeletePolicy s caller v && pred v)) }

/-- A direct `UPDATE votes` with any client-chosen row filter and update:
RLS has no UPDATE policy for `votes`, so no row is visible to the
statement. -/
def updateVotesDirect (s : DBState) (caller : UserId)
    (pred : Vote → Bool) (f : Vote → Vote) : DBState :=
  { s with votes :=
      s.votes.map (fun v => if votesUpdatePolicy s caller v && pred v then f v else v) }

/-! ### The tally function `get_vote_counts` -/

/-- A row of the `get_vote_counts` result table. -/
structure TallyRow where
  candidate_id : CandidateId
  candidate_name : String
  vote_count : Nat
deriving DecidableEq, Repr

/-- `ORDER BY vote_count DESC`. -/
def tallyOrder (a b : TallyRow) : Prop :=
  b.vote_count ≤ a.vote_count

instance : DecidableRel tallyOrder :=
  fun a b => inferInstanceAs (Decidable (b.vote_count ≤ a.vote_count))

instance : IsTotal TallyRow tallyOrder :=
  ⟨fun a b => Nat.le_total b.vote_count a.vote_count⟩

instance : IsTrans TallyRow tallyOrder :=
  ⟨fun _ _ _ h1 h2 => Nat.le_trans h2 h1⟩

/-- `get_vote_counts(election_uuid)`: candidates of the election LEFT JOINed
with votes on `c.id = v.candidate_id` (only — the votes are not filtered by
election), grouped per candidate (`c.id` is the primary key), `COUNT(v.id)`
counting the matching votes (0 when the left join finds none), ordered by
vote count descending. -/
def get_vote_counts (s : DBState) (eid : ElectionId) : List TallyRow :=
  List.insertionSort tallyOrder
    ((s.candidates.filter (fun c => c.election_id == eid)).map
      (fun c =>
        { candidate_id := c.id, candidate_name := c.name,
          vote_count := (s.votes.filter (fun v => v.candidate_id == c.id)).length }))

/-! ### Client flows -/

/-- `String.trim` as used by the source (`c.name.trim() !== ""`), written
over the underlying character list so that it evaluates by kernel
reduction: drop leading and trailing whitespace. -/
def trimStr (s : String) : String :=
  String.mk (((s.data.dropWhile Char.isWhitespace).reverse.dropWhile Char.isWhitespace).reverse)

/-- A candidate of the Admin form (`interface Candidate` in the Admin page). -/
structure CandidateForm where
  name : String
  description : String
deriving DecidableEq, Repr

/-- `handleCreateElection` from the Admin page: filter out blank-named
candidates; fewer than two valid ones aborts with a validation message
before anything is written; otherwise insert the election row, then the
candidate rows as one batch statement, then an audit log entry.  The two
inserts are separate statements with no enclosing transaction, so a failure
of the candidate batch (modelled by the fault flag `candidatesInsertFails`,
an infrastructural `DependencyFailure`) leaves the already-committed
election row in place.  The result pairs the final database state with
`none` on success or the single surfaced error. -/
def handleCreateElection (s : DBState) (caller : UserId)
    (title descr : String) (status : ElectionStatus) (anon : Bool)
    (startDate endDate : String) (cands : List CandidateForm)
    (candidatesInsertFails : Bool) : DBState × Option DBError :=
  let validCandidates := cands.filter (fun c => trimStr c.name != "")
  if validCandidates.length < 2 then
    (s, some .ValidationError)
  else
    match insertElection s caller title descr status anon startDate endDate caller with
    | .error e => (s, some e)
    | .ok (electionData, s1) =>
      if candidatesInsertFails then
        (s1, some .DependencyFailure)
      else
        match insertCandidates s1 caller
            (validCandidates.map (fun c =>
              { election_id := electionData.id, name := c.name,
                description := c.description })) with
        | .error e => (s1, some e)
        | .ok s2 => (insertAuditLog s2 caller "election_created", none)

/-- `handleSubmitVote` from VotePage.tsx: no candidate selected aborts with
a message; otherwise insert the vote row (the storage layer enforcing its
checks) and, on success, an audit log entry. -/
def handleSubmitVote (s : DBState) (caller : UserId) (electionId : ElectionId)
    (selectedCandidate : Option CandidateId) : DBState × Option DBError :=
  match selectedCandidate with
  | none => (s, some .ValidationError)
  | some cid =>
    match insertVote s caller electionId cid caller with
    | .error e => (s, some e)
    | .ok (_, s1) => (insertAuditLog s1 caller "vote_cast", none)

/-! ### CSV export (`handleExport` in ResultsPage.tsx) -/

/-- Render `n % 100` as two decimal digits. -/
def twoDigits (n : Nat) : String :=
  if n % 100 < 10 then "0" ++ toString (n % 100) else toString (n % 100)

/-- `((count / total) * 100).toFixed(2)`, idealised over exact rationals:
round `count * 100 / total` to two decimal places, ties away from zero
(the `toFixed` rule for positive values). -/
def toFixed2 (count total : Nat) : String :=
  let r := (2 * (count * 10000) + total) / (2 * total)
  toString (r / 100) ++ "." ++ twoDigits r

/-- The percentage cell:
`totalVotes > 0 ? ((count / totalVotes) * 100).toFixed(2) + "%" : "0%"`. -/
def percentCell (count total : Nat) : String :=
  if total > 0 then toFixed2 count total ++ "%" else "0%"

/-- One CSV data row: `[candidate_name, vote_count, percentage].join(",")`. -/
def csvRow (r : TallyRow) (total : Nat) : String :=
  r.candidate_name ++ "," ++ toString r.vote_count ++ "," ++ percentCell r.vote_count total

/-- `handleExport`: header row then one row per tally entry, rows joined
with newlines. -/
def handleExport (results : List TallyRow) (totalVotes : Nat) : String :=
  String.intercalate "\n"
    ("Candidate,Votes,Percentage" :: results.map (fun r => csvRow r totalVotes))

/-! ### Reachability and concurrent vote attempts -/

/-- The operations the application can drive against the store.  `signup`
is the `on_auth_user_created` trigger granting the default `student` role;
`grantRole` models the out-of-band/manual grant of further roles (spec
§3). -/
inductive Op
| signup (u : UserId)
| grantRole (u : UserId) (r : AppRole)
| createElection (caller : UserId) (title descr : String)
    (status : ElectionStatus) (anon : Bool) (startDate endDate : String)
| createCandidates (caller : UserId) (rows : List CandidateInput)
| castVote (caller : UserId) (eid : ElectionId) (cid : CandidateId) (voter : UserId)
| setElectionStatus (caller : UserId) (eid : ElectionId) (st : ElectionStatus)
| delElection (caller : UserId) (eid : ElectionId)
| delCandidate (caller : UserId) (cid : CandidateId)
| delVotes (caller : UserId) (pred : Vote → Bool)
| updVotes (caller : UserId) (pred : Vote → Bool) (f : Vote → Vote)

/-- Apply one operation; a failed insert leaves the state unchanged. -/
def applyOp (s : DBState) : Op → DBState
| .signup u => { s with user_roles := s.user_roles ++ [(u, .student)] }
| .grantRole u r => { s with user_roles := s.user_roles ++ [(u, r)] }
| .createElection caller title descr status anon sd ed =>
    match insertElection s caller title descr status anon sd ed caller with
    | .ok (_, s1) => s1
    | .error _ => s
| .createCandidates caller rows =>
    match insertCandidates s caller rows with
    | .ok s1 => s1
    | .error _ => s
| .castVote caller eid cid voter =>
    match insertVote s caller eid cid voter with
    | .ok (_, s1) => s1
    | .error _ => s
| .setElectionStatus caller eid st => updateElectionStatus s caller eid st
| .delElection caller eid => deleteElection s caller eid
| .delCandidate caller cid => deleteCandidate s caller cid
| .delVotes caller pred => deleteVotesDirect s caller pred
| .updVotes caller pred f => updateVotesDirect s caller pred f

/-- The state after a sequence of operations from the empty database. -/
def runOps (ops : List Op) : DBState :=
  ops.foldl applyOp emptyDB

/-- How many votes of `votes` carry the pair `(e, p)`. -/
def pairCount (votes : List Vote) (e : ElectionId) (p : UserId) : Nat :=
  votes.countP (fun v => v.election_id == e && v.voter_id == p)

/-- The Ballot Ledger invariant: at most one vote per (election, voter). -/
def votesUnique (s : DBState) : Prop :=
  ∀ e p, pairCount s.votes e p ≤ 1

/-- One `castVote` attempt: the caller and the row it tries to insert. -/
structure VoteReq where
  caller : UserId
  election_id : ElectionId
  candidate_id : CandidateId
  voter_id : UserId
deriving DecidableEq, Repr

/-- Run a sequence of `castVote` attempts, recording each outcome
(`none` = success).  The storage engine serialises the conflicting inserts;
any interleaving of concurrent attempts is some such sequence. -/
def runVoteAttempts (s : DBState) : List VoteReq → DBState × List (Option DBError)
| [] => (s, [])
| a :: rest =>
    match insertVote s a.caller a.election_id a.candidate_id a.voter_id with
    | .ok (_, s1) =>
        let out := runVoteAttempts s1 rest
        (out.1, none :: out.2)
    | .error e =>
        let out := runVoteAttempts s rest
        (out.1, some e :: out.2)

/-! ### Concrete example data -/

/-- An active election (id 1) owned by admin 9. -/
def exElection1 : Election :=
  { id := 1, title := "E1", description := "first", status := .active,
    is_anonymous := false, start_date := "2025-01-01", end_date := "2025-02-01",
    created_by := 9 }

/-- A draft election (id 2) owned by admin 9. -/
def exElection2 : Election :=
  { id := 2, title := "E2", description := "second", status := .draft,
    is_anonymous := false, start_date := "2025-03-01", end_date := "2025-04-01",
    created_by := 9 }

/-- Candidate 10 (Alice) of election 1. -/
def exCand10 : Candidate :=
  { id := 10, election_id := 1, name := "Alice", description := "" }

/-- Candidate 11 (Bob) of election 1. -/
def exCand11 : Candidate :=
  { id := 11, election_id := 1, name := "Bob", description := "" }

/-- Candidate 20 (Carol) of election 2. -/
def exCand20 : Candidate :=
  { id := 20, election_id := 2, name := "Carol", description := "" }

/-- A database with admin 9, student 5, the two elections above and their
candidates, and no votes yet. -/
def exDB : DBState :=
  { nextId := 100,
    user_roles := [(9, .admin), (5, .student)],
    elections := [exElection1, exElection2],
    candidates := [exCand10, exCand11, exCand20],
    votes := [],
    audit_logs := [] }

/-! ### Helper lemmas -/

lemma appendCandidates_elections (rows : List CandidateInput) :
    ∀ s : DBState, (appendCandidates s rows).elections = s.elections := by
  induction rows with
  | nil => intro s; rfl
  | cons c rest ih => intro s; simpa [appendCandidates] using ih _

lemma appendCandidates_votes (rows : List CandidateInput) :
    ∀ s : DBState, (appendCandidates s rows).votes = s.votes := by
  induction rows with
  | nil => intro s; rfl
  | cons c rest ih => intro s; simpa [appendCandidates] using ih _

lemma deleteVotesDirect_eq (s : DBState) (caller : UserId) (pred : Vote → Bool) :
    deleteVotesDirect s caller pred = s := by
  have h : s.votes.filter (fun v => ¬ (votesDeletePolicy s caller v && pred v)) = s.votes :=
    List.filter_eq_self.mpr (fun a _ => by simp [votesDeletePolicy])
  show { s with votes := _ } = s
  rw [h]

lemma updateVotesDirect_eq (s : DBState) (caller : UserId)
    (pred : Vote → Bool) (f : Vote → Vote) :
    updateVotesDirect s caller pred f = s := by
  have h : s.votes.map (fun v => if votesUpdatePolicy s caller v && pred v then f v else v)
      = s.votes := by
    have : (fun v => if votesUpdatePolicy s caller v && pred v then f v else v)
        = fun v => v := by
      funext v
      simp [votesUpdatePolicy]
    rw [this]
    exact List.map_id' s.votes
  show { s with votes := _ } = s
  rw [h]

/-! ### C5 -/

/-- C5: for every caller without the admin role, listing elections returns
only elections with status `active` — the RLS `USING` clause is applied at
the storage boundary to every row, so no choice of client-side query filter
can reveal a `draft` or `closed` election — while an admin caller sees
elections of all statuses. -/
theorem C5_nonadmin_list_active_only (s : DBState) (caller : UserId) :
    (has_role s caller .admin = false →
      ∀ (q : Election → Bool) (e : Election),
        e ∈ selectElections s caller q → e.status = .active) ∧
    (has_role s caller .admin = true →
      selectElections s caller (fun _ => true) = s.elections) := by
  constructor
  · intro hna q e he
    have he1 : e ∈ s.elections.filter (fun x => electionsSelectPolicy s caller x) :=
      List.mem_of_mem_filter he
    have hp : electionsSelectPolicy s caller e = true := List.of_mem_filter he1
    simp only [electionsSelectPolicy, hna, Bool.or_false] at hp
    exact beq_iff_eq.mp hp
  · intro ha
    unfold selectElections
    rw [List.filter_true]
    have h1 : (fun x => electionsSelectPolicy s caller x) = fun _ => true := by
      funext x
      simp [electionsSelectPolicy, ha]
    rw [h1, List.filter_true]

/-- Witness for C5: in `exDB`, student 5 can only reach active elections
(election 1 is active), while admin 9 sees the whole table including the
draft election. -/
theorem C5_witness :
    exElection1.status = .active ∧
    selectElections exDB 9 (fun _ => true) = exDB.elections :=
  ⟨(C5_nonadmin_list_active_only exDB 5).1 (by decide) (fun _ => true) exElection1 (by decide),
   (C5_nonadmin_list_active_only exDB 9).2 (by decide)⟩

/-! ### C6 -/

/-- C6: an election-creation request supplying fewer than two candidates
fails with a `ValidationError` before any creation proceeds: the returned
state is exactly the input state, so no election row and no candidate rows
are persisted. -/
theorem C6_validation_min_two (s : DBState) (caller : UserId)
    (title descr : String) (st : ElectionStatus) (anon : Bool)
    (sd ed : String) (cands : List CandidateForm) (fail : Bool)
    (h : cands.length < 2) :
    handleCreateElection s caller title descr st anon sd ed cands fail
      = (s, some .ValidationError) := by
  have hle : (cands.filter (fun c => trimStr c.name != "")).length ≤ cands.length :=
    List.length_filter_le _ _
  have hlt : (cands.filter (fun c => trimStr c.name != "")).length < 2 :=
    Nat.lt_of_le_of_lt hle h
  unfold handleCreateElection
  simp [hlt]

/-- Witness for C6: admin 9 submitting a single candidate gets a
`ValidationError` and the database is untouched. -/
theorem C6_witness :
    handleCreateElection exDB 9 "T" "D" .draft false "" ""
        [{ name := "Solo", description := "" }] false
      = (exDB, some .ValidationError) :=
  C6_validation_min_two exDB 9 "T" "D" .draft false "" ""
    [{ name := "Solo", description := "" }] false (by decide)

/-! ### C7 -/

lemma insertCandidates_ok (s : DBState) (caller : UserId) (rows : List CandidateInput)
    (ha : has_role s caller .admin = true)
    (hfk : rows.all (fun c => s.elections.any (fun e => e.id == c.election_id)) = true) :
    insertCandidates s caller rows = .ok (appendCandidates s rows) := by
  unfold insertCandidates
  rw [if_neg (by simp [ha]), if_neg (by simp [hfk])]

/-- C7: a caller without the admin role attempting `createElection` (with an
otherwise valid request, i.e. at least two non-blank candidates) fails with
`PermissionDenied` — the RLS `WITH CHECK` on the elections insert — and
creates nothing: the state comes back unchanged.  An admin caller with valid
inputs succeeds and the created election, carrying the generated id
`s.nextId`, is appended to the elections table. -/
theorem C7_create_requires_admin (s : DBState) (caller : UserId)
    (title descr : String) (st : ElectionStatus) (anon : Bool)
    (sd ed : String) (cands : List CandidateForm) :
    (has_role s caller .admin = false →
      2 ≤ (cands.filter (fun c => trimStr c.name != "")).length →
      handleCreateElection s caller title descr st anon sd ed cands false
        = (s, some .PermissionDenied)) ∧
    (has_role s caller .admin = true →
      2 ≤ (cands.filter (fun c => trimStr c.name != "")).length →
      (handleCreateElection s caller title descr st anon sd ed cands false).2 = none ∧
      (handleCreateElection s caller title descr st anon sd ed cands false).1.elections
        = s.elections ++
          [{ id := s.nextId, title := title, description := descr, status := st,
             is_anonymous := anon, start_date := sd, end_date := ed,
             created_by := caller }]) := by
  constructor
  · intro hna h2
    have hnlt : ¬ (cands.filter (fun c => trimStr c.name != "")).length < 2 :=
      Nat.not_lt.mpr h2
    unfold handleCreateElection insertElection electionsInsertCheck
    simp [hnlt, hna]
  · intro ha h2
    have hnlt : ¬ (cands.filter (fun c => trimStr c.name != "")).length < 2 :=
      Nat.not_lt.mpr h2
    have hfk : ((cands.filter (fun c => trimStr c.name != "")).map
        (fun c => ({ election_id := s.nextId, name := c.name,
                     description := c.description } : CandidateInput))).all
        (fun c => (s.elections ++
          ([{ id := s.nextId, title := title, description := descr, status := st,
              is_anonymous := anon, start_date := sd, end_date := ed,
              created_by := caller }] : List Election)).any
            (fun x => x.id == c.election_id)) = true := by
      rw [List.all_eq_true]
      intro c hc
      rcases List.mem_map.mp hc with ⟨cf, hcf, rfl⟩
      rw [List.any_eq_true]
      exact ⟨_, List.mem_append_right _ (List.mem_singleton.mpr rfl), by simp⟩
    unfold handleCreateElection insertElection electionsInsertCheck
    simp only [hnlt, if_false, ha, if_true]
    rw [if_neg Bool.false_ne_true,
        insertCandidates_ok
          { s with nextId := s.nextId + 1,
                   elections := s.elections ++
                     [{ id := s.nextId, title := title, description := descr, status := st,
                        is_anonymous := anon, start_date := sd, end_date := ed,
                        created_by := caller }] }
          caller _ ha hfk]
    exact ⟨rfl, by simp [insertAuditLog, appendCandidates_elections]⟩

/-- Witness for C7: student 5 is refused with `PermissionDenied` and the
database is unchanged; admin 9 succeeds and election id 100 (the generated
id) is appended. -/
theorem C7_witness :
    handleCreateElection exDB 5 "T" "D" .draft false "" ""
        [{ name := "Alice", description := "" }, { name := "Bob", description := "" }] false
      = (exDB, some .PermissionDenied) ∧
    (handleCreateElection exDB 9 "T" "D" .draft false "" ""
        [{ name := "Alice", description := "" }, { name := "Bob", description := "" }] false).2
      = none ∧
    (handleCreateElection exDB 9 "T" "D" .draft false "" ""
        [{ name := "Alice", description := "" }, { name := "Bob", description := "" }] false).1.elections
      = exDB.elections ++
        [{ id := 100, title := "T", description := "D", status := .draft,
           is_anonymous := false, start_date := "", end_date := "",
           created_by := 9 }] :=
  ⟨(C7_create_requires_admin exDB 5 "T" "D" .draft false "" ""
      [{ name := "Alice", description := "" }, { name := "Bob", description := "" }]).1
      (by decide) (by decide),
   ((C7_create_requires_admin exDB 9 "T" "D" .draft false "" ""
      [{ name := "Alice", description := "" }, { name := "Bob", description := "" }]).2
      (by decide) (by decide)).1,
   ((C7_create_requires_admin exDB 9 "T" "D" .draft false "" ""
      [{ name := "Alice", description := "" }, { name := "Bob", description := "" }]).2
      (by decide) (by decide)).2⟩

/-! ### C9 -/

lemma twoDigits_length (n : Nat) : (twoDigits n).length = 2 := by
  have h : ∀ m, m < 100 → ((twoDigits m).length = 2) := by decide
  have hmod : twoDigits (n % 100) = twoDigits n := by
    unfold twoDigits
    rw [Nat.mod_mod_of_dvd n dvd_rfl]
  rw [← hmod]
  exact h _ (Nat.mod_lt _ (by decide))

/-- C9: the CSV export consists of the header `Candidate,Votes,Percentage`
followed by one `name,count,percentage` row per tally entry; the percentage
cell is the literal `0%` when the total vote count is zero and otherwise a
number with exactly two digits after the decimal point, `%`-suffixed; on
the tally `[(A,3),(B,1)]` with total 4 the exported text is exactly
`Candidate,Votes,Percentage`, `A,3,75.00%`, `B,1,25.00%`. -/
theorem C9_csv_export_format (results : List TallyRow) (total : Nat) :
    handleExport results total =
      String.intercalate "\n"
        ("Candidate,Votes,Percentage" ::
          results.map (fun r =>
            r.candidate_name ++ "," ++ toString r.vote_count ++ ","
              ++ percentCell r.vote_count total)) ∧
    (∀ c, percentCell c 0 = "0%") ∧
    (0 < total → ∀ c, ∃ ip fp,
      percentCell c total = ip ++ "." ++ fp ++ "%" ∧ fp.length = 2) ∧
    handleExport
        [{ candidate_id := 10, candidate_name := "A", vote_count := 3 },
         { candidate_id := 11, candidate_name := "B", vote_count := 1 }] 4
      = "Candidate,Votes,Percentage\nA,3,75.00%\nB,1,25.00%" := by
  refine ⟨rfl, fun c => rfl, ?_, by decide⟩
  intro ht c
  refine ⟨toString ((2 * (c * 10000) + total) / (2 * total) / 100),
          twoDigits ((2 * (c * 10000) + total) / (2 * total)), ?_, twoDigits_length _⟩
  unfold percentCell toFixed2
  rw [if_pos ht]

/-- Witness for C9: the concrete export of `[(A,3),(B,1)]` with total 4,
obtained from the theorem. -/
theorem C9_witness :
    handleExport
        [{ candidate_id := 10, candidate_name := "A", vote_count := 3 },
         { candidate_id := 11, candidate_name := "B", vote_count := 1 }] 4
      = "Candidate,Votes,Percentage\nA,3,75.00%\nB,1,25.00%" ∧
    percentCell 7 0 = "0%" :=
  ⟨(C9_csv_export_format [] 0).2.2.2,
   (C9_csv_export_format [] 0).2.1 7⟩

/-! ### C10 -/

/-- C10: the RLS insert check on `votes` is exactly `voter_id = auth.uid()`:
it permits a row if and only if the supplied `voter_id` equals the caller,
and it never consults the referenced election's status — for any state, any
existing election of any status (in particular `draft` or `closed`) and any
existing candidate, an insert naming the caller as voter for that election
is not blocked by authorization (it goes through whenever the caller has
not already voted there). -/
theorem C10_vote_check_only_voter_identity (s : DBState) (caller : UserId) :
    (∀ v : Vote, votesInsertCheck caller v = true ↔ v.voter_id = caller) ∧
    (∀ (eid : ElectionId) (cid : CandidateId),
      s.elections.any (fun e => e.id == eid) = true →
      s.candidates.any (fun c => c.id == cid) = true →
      pairCount s.votes eid caller = 0 →
      (insertVote s caller eid cid caller).isOk = true) := by
  constructor
  · intro v
    exact beq_iff_eq
  · intro eid cid helec hcand h0
    have hall : ∀ a ∈ s.votes, ¬ ((a.election_id == eid && a.voter_id == caller) = true) :=
      List.countP_eq_zero.mp h0
    have hdup : ¬ (s.votes.any (fun w => w.election_id == eid && w.voter_id == caller) = true) := by
      rw [List.any_eq_true]
      rintro ⟨a, ha, hpa⟩
      exact hall a ha hpa
    unfold insertVote
    rw [if_neg (by simp [votesInsertCheck]), if_neg (by simp [helec]),
        if_neg (by simp [hcand]), if_neg hdup]
    rfl

/-- Witness for C10: in `exDB`, election 2 has status `draft`, yet student
5 voting there for its candidate 20 passes the storage-layer check and the
insert succeeds. -/
theorem C10_witness :
    exElection2.status = .draft ∧
    (insertVote exDB 5 2 20 5).isOk = true :=
  ⟨rfl,
   (C10_vote_check_only_voter_identity exDB 5).2 2 20 (by decide) (by decide) (by decide)⟩

/-! ### C4 -/

/-- The vote row produced by the mismatched insert of `C4_counterexample`. -/
def exVoteBad : Vote :=
  { id := 100, election_id := 1, candidate_id := 20, voter_id := 5, vote_token := 100 }

/-- `exDB` after the mismatched vote insert. -/
def exDBbad : DBState :=
  { exDB with nextId := 101, votes := [exVoteBad] }

/-- Counterexample to C4 as stated: candidate 20 belongs to election 2, yet
`castVote` for election 1 with candidate 20 succeeds and records the vote —
no check ties the candidate to the election (the schema's two foreign keys
are independent, exactly the §9 open question of the spec). -/
theorem C4_counterexample :
    exCand20 ∈ exDB.candidates ∧
    exCand20.election_id = 2 ∧
    insertVote exDB 5 1 20 5 = .ok (exVoteBad, exDBbad) ∧
    exVoteBad ∈ exDBbad.votes ∧
    exVoteBad.election_id = 1 ∧
    exVoteBad.candidate_id = 20 := by
  exact ⟨by decide, rfl, rfl, by decide, rfl, rfl⟩

/-- C4 amended: a successful `castVote` insert guarantees that the supplied
voter is the authenticated caller, that the election exists, and that the
candidate exists in the candidates table — but not that the candidate
belongs to that election; the recorded row carries exactly the supplied
(election, candidate, voter) triple. -/
theorem C4_cast_vote_validations (s : DBState) (caller : UserId)
    (eid : ElectionId) (cid : CandidateId) (vtr : UserId) (w : Vote) (s1 : DBState)
    (h : insertVote s caller eid cid vtr = .ok (w, s1)) :
    vtr = caller ∧
    s.elections.any (fun e => e.id == eid) = true ∧
    s.candidates.any (fun c => c.id == cid) = true ∧
    s1.votes = s.votes ++ [w] ∧
    w.election_id = eid ∧ w.candidate_id = cid ∧ w.voter_id = vtr := by
  have hA : (vtr == caller) = true := by
    cases hb : (vtr == caller) with
    | false =>
      exfalso
      unfold insertVote at h
      dsimp only [] at h
      rw [if_pos (by simp [votesInsertCheck, hb])] at h
      exact Except.noConfusion h
    | true => rfl
  have hB : s.elections.any (fun e => e.id == eid) = true := by
    cases hb : s.elections.any (fun e => e.id == eid) with
    | false =>
      exfalso
      unfold insertVote at h
      dsimp only [] at h
      rw [if_neg (by simp [votesInsertCheck, hA]), if_pos (by simp [hb])] at h
      exact Except.noConfusion h
    | true => rfl
  have hC : s.candidates.any (fun c => c.id == cid) = true := by
    cases hb : s.candidates.any (fun c => c.id == cid) with
    | false =>
      exfalso
      unfold insertVote at h
      dsimp only [] at h
      rw [if_neg (by simp [votesInsertCheck, hA]), if_neg (by simp [hB]),
          if_pos (by simp [hb])] at h
      exact Except.noConfusion h
    | true => rfl
  have hD : s.votes.any (fun w => w.election_id == eid && w.voter_id == vtr) = false := by
    cases hb : s.votes.any (fun w => w.election_id == eid && w.voter_id == vtr) with
    | false => rfl
    | true =>
      exfalso
      unfold insertVote at h
      dsimp only [] at h
      rw [if_neg (by simp [votesInsertCheck, hA]), if_neg (by simp [hB]),
          if_neg (by simp [hC]), if_pos (by simp [hb])] at h
      exact Except.noConfusion h
  unfold insertVote at h
  dsimp only [] at h
  rw [if_neg (by simp [votesInsertCheck, hA]), if_neg (by simp [hB]),
      if_neg (by simp [hC]), if_neg (by simp [hD])] at h
  simp only [Except.ok.injEq, Prod.mk.injEq] at h
  obtain ⟨hw, hs⟩ := h
  subst hw
  subst hs
  exact ⟨beq_iff_eq.mp hA, hB, hC, rfl, rfl, rfl, rfl⟩

/-- Witness for C4's amended theorem, at the concrete mismatched insert. -/
theorem C4_witness :
    (5 : UserId) = 5 ∧
    exDB.elections.any (fun e => e.id == 1) = true ∧
    exDB.candidates.any (fun c => c.id == 20) = true ∧
    exDBbad.votes = exDB.votes ++ [exVoteBad] ∧
    exVoteBad.election_id = 1 ∧ exVoteBad.candidate_id = 20 ∧ exVoteBad.voter_id = 5 :=
  C4_cast_vote_validations exDB 5 1 20 5 exVoteBad exDBbad rfl

/-! ### C8 -/

/-- A cast vote: student 5 voted for candidate 10 in election 1. -/
def exVote : Vote :=
  { id := 30, election_id := 1, candidate_id := 10, voter_id := 5, vote_token := 31 }

/-- `exDB` with that vote on record. -/
def exDBv : DBState :=
  { exDB with votes := [exVote] }

/-- Counterexample to C8 as stated: admin 9 deletes candidate 10 (exposed
through the "Only admins can manage candidates" policy), and the
`ON DELETE CASCADE` on `votes.candidate_id` removes the vote although its
election still exists — so a vote row can be removed by an operation other
than the deletion of its election. -/
theorem C8_counterexample :
    exVote ∈ exDBv.votes ∧
    exVote.election_id = exElection1.id ∧
    (deleteCandidate exDBv 9 10).votes = [] ∧
    exElection1 ∈ (deleteCandidate exDBv 9 10).elections := by
  exact ⟨by decide, rfl, by decide, by decide⟩

/-- C8 amended: no update or delete operation on `votes` is exposed through
normal channels — a direct `UPDATE` or `DELETE` on the votes table is a
no-op for every caller and every row filter, because RLS declares no policy
for those commands — so vote rows are removed only by cascade: deleting a
vote's election, or deleting its candidate (the `ON DELETE CASCADE` on
`votes.candidate_id`), which removes exactly the votes naming that
candidate while leaving the elections table untouched. -/
theorem C8_votes_immutable (s : DBState) (caller : UserId) :
    (∀ pred, deleteVotesDirect s caller pred = s) ∧
    (∀ pred f, updateVotesDirect s caller pred f = s) ∧
    (has_role s caller .admin = true →
      ∀ cid, (deleteCandidate s caller cid).votes
          = s.votes.filter (fun v => v.candidate_id != cid) ∧
        (deleteCandidate s caller cid).elections = s.elections) := by
  refine ⟨fun pred => deleteVotesDirect_eq s caller pred,
          fun pred f => updateVotesDirect_eq s caller pred f, ?_⟩
  intro ha cid
  unfold deleteCandidate
  rw [if_pos ha]
  exact ⟨rfl, rfl⟩

/-- Witness for C8's amended theorem at the concrete state with a vote. -/
theorem C8_witness :
    deleteVotesDirect exDBv 9 (fun _ => true) = exDBv ∧
    updateVotesDirect exDBv 9 (fun _ => true) (fun v => v) = exDBv ∧
    (deleteCandidate exDBv 9 11).votes
      = exDBv.votes.filter (fun v => v.candidate_id != 11) ∧
    (deleteCandidate exDBv 9 11).elections = exDBv.elections :=
  ⟨(C8_votes_immutable exDBv 9).1 (fun _ => true),
   (C8_votes_immutable exDBv 9).2.1 (fun _ => true) (fun v => v),
   ((C8_votes_immutable exDBv 9).2.2 (by decide) 11).1,
   ((C8_votes_immutable exDBv 9).2.2 (by decide) 11).2⟩

/-! ### C3 -/

/-- A fresh database with only admin 9 registered. -/
def dbAdminOnly : DBState :=
  { nextId := 0, user_roles := [(9, .admin)], elections := [], candidates := [],
    votes := [], audit_logs := [] }

/-- The election row committed by the failing creation run. -/
def orphanElection : Election :=
  { id := 0, title := "T", description := "D", status := .active,
    is_anonymous := false, start_date := "sd", end_date := "ed", created_by := 9 }

/-- The state left behind by the failing creation run: the election row is
persisted, with no candidates at all. -/
def dbOrphan : DBState :=
  { dbAdminOnly with nextId := 1, elections := [orphanElection] }

/-- C3 evaluated at the failing input: admin 9 creates an election with two
candidates, the election insert commits, then the candidates batch insert
fails infrastructurally — the run surfaces a single error, but the state it
leaves contains the election row with zero candidates persisted, because
the two inserts are separate statements with no enclosing transaction or
rollback.  The claim requires the final state to contain no election with
fewer than two candidates. -/
theorem C3_orphan_election_persists :
    handleCreateElection dbAdminOnly 9 "T" "D" .active false "sd" "ed"
        [{ name := "Alice", description := "" }, { name := "Bob", description := "" }] true
      = (dbOrphan, some .DependencyFailure) ∧
    orphanElection ∈ dbOrphan.elections ∧
    (dbOrphan.candidates.filter (fun c => c.election_id == orphanElection.id)).length = 0 := by
  exact ⟨rfl, by decide, rfl⟩

/-! ### C2 -/

/-- `exDB` after the vote sequence [A, A, B]: two votes for candidate 10
(Alice) and one for candidate 11 (Bob), all in election 1. -/
def exDBtally : DBState :=
  { exDB with votes :=
      [{ id := 30, election_id := 1, candidate_id := 10, voter_id := 5, vote_token := 31 },
       { id := 32, election_id := 1, candidate_id := 10, voter_id := 6, vote_token := 33 },
       { id := 34, election_id := 1, candidate_id := 11, voter_id := 7, vote_token := 35 }] }

/-- C2: `get_vote_counts` returns one row per candidate of the election —
exactly as many rows as the election has candidates, with every candidate
present (zero-vote candidates included with count 0) and nothing else —
each row's count being the number of committed votes for that candidate,
ordered by descending vote count; on candidates Alice and Bob with votes
[A, A, B] it returns [(Alice, 2), (Bob, 1)], and with zero votes it
returns [(Alice, 0), (Bob, 0)]. -/
theorem C2_tally_counts (s : DBState) (eid : ElectionId) :
    ((get_vote_counts s eid).length
        = (s.candidates.filter (fun c => c.election_id == eid)).length) ∧
    (∀ c ∈ s.candidates, c.election_id = eid →
      ({ candidate_id := c.id, candidate_name := c.name,
         vote_count := (s.votes.filter (fun v => v.candidate_id == c.id)).length } : TallyRow)
        ∈ get_vote_counts s eid) ∧
    (∀ row ∈ get_vote_counts s eid, ∃ c, c ∈ s.candidates ∧ c.election_id = eid ∧
      row.candidate_id = c.id ∧ row.candidate_name = c.name ∧
      row.vote_count = (s.votes.filter (fun v => v.candidate_id == c.id)).length) ∧
    (get_vote_counts s eid).Sorted tallyOrder ∧
    get_vote_counts exDBtally 1
      = [{ candidate_id := 10, candidate_name := "Alice", vote_count := 2 },
         { candidate_id := 11, candidate_name := "Bob", vote_count := 1 }] ∧
    get_vote_counts exDB 1
      = [{ candidate_id := 10, candidate_name := "Alice", vote_count := 0 },
         { candidate_id := 11, candidate_name := "Bob", vote_count := 0 }] := by
  refine ⟨?_, ?_, ?_, ?_, by decide, by decide⟩
  · unfold get_vote_counts
    rw [List.length_insertionSort, List.length_map]
  · intro c hc heid
    unfold get_vote_counts
    rw [(List.perm_insertionSort tallyOrder _).mem_iff]
    exact List.mem_map_of_mem _ (List.mem_filter.mpr ⟨hc, by simp [heid]⟩)
  · intro row hrow
    unfold get_vote_counts at hrow
    rw [(List.perm_insertionSort tallyOrder _).mem_iff] at hrow
    rcases List.mem_map.mp hrow with ⟨c, hcf, rfl⟩
    rcases List.mem_filter.mp hcf with ⟨hc, heid⟩
    exact ⟨c, hc, beq_iff_eq.mp heid, rfl, rfl, rfl⟩
  · exact List.sorted_insertionSort tallyOrder _

/-- Witness for C2: Alice's row (two votes) is present in the tally of
`exDBtally`, and the tally has one row per candidate of election 1. -/
theorem C2_witness :
    ({ candidate_id := 10, candidate_name := "Alice", vote_count := 2 } : TallyRow)
      ∈ get_vote_counts exDBtally 1 ∧
    (get_vote_counts exDBtally 1).length
      = (exDBtally.candidates.filter (fun c => c.election_id == 1)).length :=
  ⟨(C2_tally_counts exDBtally 1).2.1 exCand10 (by decide) rfl,
   (C2_tally_counts exDBtally 1).1⟩

/-! ### C1 -/

lemma pairCount_filter_le (l : List Vote) (q : Vote → Bool) (e : ElectionId) (p : UserId) :
    pairCount (l.filter q) e p ≤ pairCount l e p :=
  (List.filter_sublist l).countP_le _

lemma pairCount_eq_zero_of_any_false {l : List Vote} {e : ElectionId} {p : UserId}
    (h : l.any (fun x => x.election_id == e && x.voter_id == p) = false) :
    pairCount l e p = 0 := by
  refine List.countP_eq_zero.mpr ?_
  intro a ha hpa
  have : l.any (fun x => x.election_id == e && x.voter_id == p) = true :=
    List.any_eq_true.mpr ⟨a, ha, hpa⟩
  rw [h] at this
  exact Bool.false_ne_true this

/-- An `insertVote` that fails a check: duplicate pair present. -/
lemma insertVote_dup (s : DBState) (p : UserId) (e : ElectionId) (cid : CandidateId)
    (helec : s.elections.any (fun x => x.id == e) = true)
    (hcand : s.candidates.any (fun c => c.id == cid) = true)
    (hdup : s.votes.any (fun x => x.election_id == e && x.voter_id == p) = true) :
    insertVote s p e cid p = .error .DuplicateVote := by
  unfold insertVote
  dsimp only []
  rw [if_neg (by simp [votesInsertCheck]), if_neg (by simp [helec]),
      if_neg (by simp [hcand]), if_pos (by simp [hdup])]

/-- An `insertVote` whose checks all pass. -/
lemma insertVote_eq_ok (s : DBState) (p : UserId) (e : ElectionId) (cid : CandidateId)
    (helec : s.elections.any (fun x => x.id == e) = true)
    (hcand : s.candidates.any (fun c => c.id == cid) = true)
    (hdup : s.votes.any (fun x => x.election_id == e && x.voter_id == p) = false) :
    insertVote s p e cid p =
      .ok ({ id := s.nextId, election_id := e, candidate_id := cid,
             voter_id := p, vote_token := s.nextId },
           { s with nextId := s.nextId + 1,
                    votes := s.votes ++
                      [{ id := s.nextId, election_id := e, candidate_id := cid,
                         voter_id := p, vote_token := s.nextId }] }) := by
  unfold insertVote
  dsimp only []
  rw [if_neg (by simp [votesInsertCheck]), if_neg (by simp [helec]),
      if_neg (by simp [hcand]), if_neg (by simp [hdup])]

lemma insertElection_ok_votes {s : DBState} {caller : UserId}
    {t d : String} {st : ElectionStatus} {anon : Bool} {sd ed : String} {cb : UserId}
    {e : Election} {s1 : DBState}
    (h : insertElection s caller t d st anon sd ed cb = .ok (e, s1)) :
    s1.votes = s.votes := by
  unfold insertElection at h
  split_ifs at h with h1
  simp only [Except.ok.injEq, Prod.mk.injEq] at h
  obtain ⟨_, hs⟩ := h
  subst hs
  rfl

lemma insertCandidates_ok_votes {s : DBState} {caller : UserId}
    {rows : List CandidateInput} {s1 : DBState}
    (h : insertCandidates s caller rows = .ok s1) :
    s1.votes = s.votes := by
  unfold insertCandidates at h
  split_ifs at h
  all_goals first
    | exact Except.noConfusion h
    | (simp only [Except.ok.injEq] at h
       subst h
       exact appendCandidates_votes rows s)

/-- The complete characterisation of a successful vote insert. -/
lemma insertVote_ok_spec {s : DBState} {caller : UserId}
    {eid : ElectionId} {cid : CandidateId} {vtr : UserId} {w : Vote} {s1 : DBState}
    (h : insertVote s caller eid cid vtr = .ok (w, s1)) :
    (vtr == caller) = true ∧
    s.elections.any (fun e => e.id == eid) = true ∧
    s.candidates.any (fun c => c.id == cid) = true ∧
    s.votes.any (fun x => x.election_id == eid && x.voter_id == vtr) = false ∧
    w = { id := s.nextId, election_id := eid, candidate_id := cid,
          voter_id := vtr, vote_token := s.nextId } ∧
    s1 = { s with nextId := s.nextId + 1, votes := s.votes ++ [w] } := by
  have hA : (vtr == caller) = true := by
    cases hb : (vtr == caller) with
    | false =>
      exfalso
      unfold insertVote at h
      dsimp only [] at h
      rw [if_pos (by simp [votesInsertCheck, hb])] at h
      exact Except.noConfusion h
    | true => rfl
  have hB : s.elections.any (fun e => e.id == eid) = true := by
    cases hb : s.elections.any (fun e => e.id == eid) with
    | false =>
      exfalso
      unfold insertVote at h
      dsimp only [] at h
      rw [if_neg (by simp [votesInsertCheck, hA]), if_pos (by simp [hb])] at h
      exact Except.noConfusion h
    | true => rfl
  have hC : s.candidates.any (fun c => c.id == cid) = true := by
    cases hb : s.candidates.any (fun c => c.id == cid) with
    | false =>
      exfalso
      unfold insertVote at h
      dsimp only [] at h
      rw [if_neg (by simp [votesInsertCheck, hA]), if_neg (by simp [hB]),
          if_pos (by simp [hb])] at h
      exact Except.noConfusion h
    | true => rfl
  have hD : s.votes.any (fun x => x.election_id == eid && x.voter_id == vtr) = false := by
    cases hb : s.votes.any (fun x => x.election_id == eid && x.voter_id == vtr) with
    | false => rfl
    | true =>
      exfalso
      unfold insertVote at h
      dsimp only [] at h
      rw [if_neg (by simp [votesInsertCheck, hA]), if_neg (by simp [hB]),
          if_neg (by simp [hC]), if_pos (by simp [hb])] at h
      exact Except.noConfusion h
  unfold insertVote at h
  dsimp only [] at h
  rw [if_neg (by simp [votesInsertCheck, hA]), if_neg (by simp [hB]),
      if_neg (by simp [hC]), if_neg (by simp [hD])] at h
  simp only [Except.ok.injEq, Prod.mk.injEq] at h
  obtain ⟨hw, hs⟩ := h
  subst hw
  subst hs
  exact ⟨hA, hB, hC, hD, rfl, rfl⟩

lemma applyOp_votesUnique (s : DBState) (op : Op) (h : votesUnique s) :
    votesUnique (applyOp s op) := by
  cases op with
  | signup u => exact h
  | grantRole u r => exact h
  | createElection caller t d st anon sd ed =>
    dsimp only [applyOp]
    cases hres : insertElection s caller t d st anon sd ed caller with
    | error er => exact h
    | ok pr =>
      obtain ⟨w, s1⟩ := pr
      intro e p
      rw [insertElection_ok_votes hres]
      exact h e p
  | createCandidates caller rows =>
    dsimp only [applyOp]
    cases hres : insertCandidates s caller rows with
    | error er => exact h
    | ok s1 =>
      intro e p
      rw [insertCandidates_ok_votes hres]
      exact h e p
  | castVote caller eid cid voter =>
    dsimp only [applyOp]
    cases hres : insertVote s caller eid cid voter with
    | error er => exact h
    | ok pr =>
      obtain ⟨w, s1⟩ := pr
      obtain ⟨-, -, -, hdup, hw, hs⟩ := insertVote_ok_spec hres
      subst hs
      intro e p
      show pairCount (s.votes ++ [w]) e p ≤ 1
      rw [pairCount, List.countP_append]
      by_cases hm : (w.election_id == e && w.voter_id == p) = true
      · have he : eid = e := by
          have := (Bool.and_eq_true _ _).mp hm
          have h1 := beq_iff_eq.mp this.1
          rw [hw] at h1
          exact h1
        have hp : voter = p := by
          have := (Bool.and_eq_true _ _).mp hm
          have h1 := beq_iff_eq.mp this.2
          rw [hw] at h1
          exact h1
        subst he
        subst hp
        have h0 : pairCount s.votes eid voter = 0 := pairCount_eq_zero_of_any_false hdup
        rw [pairCount] at h0
        rw [h0]
        simp [List.countP_cons, hm]
      · have h1 : List.countP (fun v => v.election_id == e && v.voter_id == p) [w] = 0 := by
          simp only [List.countP_cons, List.countP_nil]
          simp [hm]
        rw [h1]
        simpa using h e p
  | setElectionStatus caller eid st =>
    dsimp only [applyOp]
    unfold updateElectionStatus
    split
    · exact h
    · exact h
  | delElection caller eid =>
    dsimp only [applyOp]
    unfold deleteElection
    split
    · intro e p
      exact Nat.le_trans (pairCount_filter_le s.votes _ e p) (h e p)
    · exact h
  | delCandidate caller cid =>
    dsimp only [applyOp]
    unfold deleteCandidate
    split
    · intro e p
      exact Nat.le_trans (pairCount_filter_le s.votes _ e p) (h e p)
    · exact h
  | delVotes caller pred =>
    dsimp only [applyOp]
    rw [deleteVotesDirect_eq]
    exact h
  | updVotes caller pred f =>
    dsimp only [applyOp]
    rw [updateVotesDirect_eq]
    exact h

lemma votesUnique_empty : votesUnique emptyDB := by
  intro e p
  simp [pairCount, emptyDB]

lemma foldl_votesUnique (ops : List Op) :
    ∀ s : DBState, votesUnique s → votesUnique (ops.foldl applyOp s) := by
  induction ops with
  | nil => intro s h; exact h
  | cons op rest ih => intro s h; exact ih _ (applyOp_votesUnique s op h)

/-- Once a vote for the pair `(e, p)` is on record, every further valid
attempt for that pair fails with `DuplicateVote` and the state does not
change. -/
lemma runVoteAttempts_saturated (atts : List VoteReq) :
    ∀ (s : DBState) (e : ElectionId) (p : UserId),
    (∀ a ∈ atts, a.caller = p ∧ a.voter_id = p ∧ a.election_id = e) →
    s.elections.any (fun x => x.id == e) = true →
    (∀ a ∈ atts, s.candidates.any (fun c => c.id == a.candidate_id) = true) →
    s.votes.any (fun x => x.election_id == e && x.voter_id == p) = true →
    runVoteAttempts s atts = (s, atts.map (fun _ => some .DuplicateVote)) := by
  induction atts with
  | nil =>
    intro s e p _ _ _ _
    rfl
  | cons a rest ih =>
    intro s e p hval helec hcand hdup
    obtain ⟨hac, hav, hae⟩ := hval a (List.mem_cons_self a rest)
    have hins : insertVote s a.caller a.election_id a.candidate_id a.voter_id
        = .error .DuplicateVote := by
      rw [hac, hav, hae]
      exact insertVote_dup s p e a.candidate_id helec
        (hcand a (List.mem_cons_self a rest)) hdup
    show runVoteAttempts s (a :: rest) = _
    unfold runVoteAttempts
    rw [hins]
    dsimp only []
    rw [ih s e p (fun b hb => hval b (List.mem_cons_of_mem a hb)) helec
        (fun b hb => hcand b (List.mem_cons_of_mem a hb)) hdup]
    rfl

/-- Any sequence of `castVote` attempts for one `(election, voter)` pair,
run against a state where that pair has not voted yet: at most one attempt
succeeds, every other outcome is `DuplicateVote`, and the final state holds
at most one vote for the pair. -/
lemma runVoteAttempts_at_most_one (s : DBState) (atts : List VoteReq)
    (e : ElectionId) (p : UserId)
    (hval : ∀ a ∈ atts, a.caller = p ∧ a.voter_id = p ∧ a.election_id = e)
    (helec : s.elections.any (fun x => x.id == e) = true)
    (hcand : ∀ a ∈ atts, s.candidates.any (fun c => c.id == a.candidate_id) = true)
    (hdup : s.votes.any (fun x => x.election_id == e && x.voter_id == p) = false) :
    ((runVoteAttempts s atts).2.countP (fun r => r.isNone) ≤ 1) ∧
    (∀ r ∈ (runVoteAttempts s atts).2, r = none ∨ r = some .DuplicateVote) ∧
    pairCount (runVoteAttempts s atts).1.votes e p ≤ 1 := by
  cases atts with
  | nil =>
    refine ⟨by simp [runVoteAttempts], by simp [runVoteAttempts], ?_⟩
    show pairCount s.votes e p ≤ 1
    rw [pairCount_eq_zero_of_any_false hdup]
    exact Nat.zero_le 1
  | cons a rest =>
    obtain ⟨hac, hav, hae⟩ := hval a (List.mem_cons_self a rest)
    have hins : insertVote s a.caller a.election_id a.candidate_id a.voter_id
        = .ok ({ id := s.nextId, election_id := e, candidate_id := a.candidate_id,
                 voter_id := p, vote_token := s.nextId },
               { s with nextId := s.nextId + 1,
                        votes := s.votes ++
                          [{ id := s.nextId, election_id := e,
                             candidate_id := a.candidate_id,
                             voter_id := p, vote_token := s.nextId }] }) := by
      rw [hac, hav, hae]
      exact insertVote_eq_ok s p e a.candidate_id helec
        (hcand a (List.mem_cons_self a rest)) hdup
    have hsat : runVoteAttempts
        { s with nextId := s.nextId + 1,
                 votes := s.votes ++
                   [{ id := s.nextId, election_id := e, candidate_id := a.candidate_id,
                      voter_id := p, vote_token := s.nextId }] } rest
        = ({ s with nextId := s.nextId + 1,
                    votes := s.votes ++
                      [{ id := s.nextId, election_id := e, candidate_id := a.candidate_id,
                         voter_id := p, vote_token := s.nextId }] },
           rest.map (fun _ => some .DuplicateVote)) := by
      refine runVoteAttempts_saturated rest _ e p
        (fun b hb => hval b (List.mem_cons_of_mem a hb)) helec
        (fun b hb => hcand b (List.mem_cons_of_mem a hb)) ?_
      show (s.votes ++ [_]).any _ = true
      rw [List.any_append]
      simp
    have hrun : runVoteAttempts s (a :: rest)
        = ({ s with nextId := s.nextId + 1,
                    votes := s.votes ++
                      [{ id := s.nextId, election_id := e, candidate_id := a.candidate_id,
                         voter_id := p, vote_token := s.nextId }] },
           none :: rest.map (fun _ => some .DuplicateVote)) := by
      unfold runVoteAttempts
      rw [hins]
      dsimp only []
      rw [hsat]
    rw [hrun]
    refine ⟨?_, ?_, ?_⟩
    · show List.countP _ (none :: _) ≤ 1
      rw [List.countP_cons]
      have hz : List.countP (fun r => r.isNone)
          (rest.map (fun _ => (some DBError.DuplicateVote : Option DBError))) = 0 := by
        refine List.countP_eq_zero.mpr ?_
        intro x hx hpx
        rcases List.mem_map.mp hx with ⟨b, hb, rfl⟩
        exact Bool.false_ne_true hpx
      rw [hz]
      simp
    · intro r hr
      rcases List.mem_cons.mp hr with hr | hr
      · exact Or.inl hr
      · rcases List.mem_map.mp hr with ⟨b, hb, rfl⟩
        exact Or.inr rfl
    · show pairCount (s.votes ++ [_]) e p ≤ 1
      rw [pairCount, List.countP_append]
      have h0 : List.countP (fun v => v.election_id == e && v.voter_id == p) s.votes = 0 :=
        pairCount_eq_zero_of_any_false hdup
      rw [h0]
      simp [List.countP_cons]

/-- C1: the Ballot Ledger's `UNIQUE(election_id, voter_id)` constraint —
embedded as the atomic duplicate check inside the storage-level insert, not
an application-level check-then-insert — guarantees that (i) every state
reachable from the empty database through any sequence of application
operations holds at most one vote per `(election, voter)` pair, and
(ii) for any serialisation of a set of `castVote` attempts for one
`(election, voter)` pair against a state where the pair has not voted, at
most one attempt succeeds, every other attempt fails with `DuplicateVote`,
and the resulting state still holds at most one vote for the pair. -/
theorem C1_one_vote_per_election_and_voter :
    (∀ (ops : List Op) (e : ElectionId) (p : UserId),
       pairCount (runOps ops).votes e p ≤ 1) ∧
    (∀ (s : DBState) (atts : List VoteReq) (e : ElectionId) (p : UserId),
       (∀ a ∈ atts, a.caller = p ∧ a.voter_id = p ∧ a.election_id = e) →
       s.elections.any (fun x => x.id == e) = true →
       (∀ a ∈ atts, s.candidates.any (fun c => c.id == a.candidate_id) = true) →
       s.votes.any (fun x => x.election_id == e && x.voter_id == p) = false →
       ((runVoteAttempts s atts).2.countP (fun r => r.isNone) ≤ 1) ∧
       (∀ r ∈ (runVoteAttempts s atts).2, r = none ∨ r = some .DuplicateVote) ∧
       pairCount (runVoteAttempts s atts).1.votes e p ≤ 1) :=
  ⟨fun ops e p => foldl_votesUnique ops emptyDB votesUnique_empty e p,
   fun s atts e p hval helec hcand hdup =>
     runVoteAttempts_at_most_one s atts e p hval helec hcand hdup⟩

/-- An operation sequence with a double-vote attempt: signup, admin grant,
election creation (id 0) with two candidates (ids 1 and 2), then two
identical `castVote` calls by voter 5. -/
def opsDoubleVote : List Op :=
  [.signup 5, .grantRole 9 .admin,
   .createElection 9 "T" "D" .active false "sd" "ed",
   .createCandidates 9
     [{ election_id := 0, name := "Alice", description := "" },
      { election_id := 0, name := "Bob", description := "" }],
   .castVote 5 0 1 5, .castVote 5 0 1 5]

/-- Two identical `castVote` requests by student 5 for election 1 and
candidate 10. -/
def attsDoubleVote : List VoteReq :=
  [{ caller := 5, election_id := 1, candidate_id := 10, voter_id := 5 },
   { caller := 5, election_id := 1, candidate_id := 10, voter_id := 5 }]

/-- Witness for C1: after the double-vote operation sequence the ledger
holds at most one vote for `(election 0, voter 5)`; running the two
identical attempts against `exDB` yields at most one success and a final
state with at most one vote for `(election 1, voter 5)`. -/
theorem C1_witness :
    pairCount (runOps opsDoubleVote).votes 0 5 ≤ 1 ∧
    (runVoteAttempts exDB attsDoubleVote).2.countP (fun r => r.isNone) ≤ 1 ∧
    pairCount (runVoteAttempts exDB attsDoubleVote).1.votes 1 5 ≤ 1 :=
  ⟨C1_one_vote_per_election_and_voter.1 opsDoubleVote 0 5,
   (C1_one_vote_per_election_and_voter.2 exDB attsDoubleVote 1 5
      (by decide) (by decide) (by decide) (by decide)).1,
   (C1_one_vote_per_election_and_voter.2 exDB attsDoubleVote 1 5
      (by decide) (by decide) (by decide) (by decide)).2.2⟩
